import Mathlib

/-!
Verification of the query-filtering layer of the kpi repository
(`src/kpi/filters.py`) against its natural-language specification.

The Python filter backends are shallowly embedded as executable Lean
functions over explicit data: querysets become lists, Django ORM filters
become `List.filter`, `FieldError`-on-missing-field becomes a capability
flag on a schema record, and the external collaborators (permission
store, search index) become explicit data passed to the functions.
-/

/-- A principal, as seen by the filters (`request.user`).
`is_anonymous` models Django's `user.is_anonymous()`. -/
structure User where
  id : Nat
  username : String
  is_superuser : Bool
  is_anonymous : Bool
deriving DecidableEq

/-- Model of `settings.ANONYMOUS_USER_ID`: the primary key reserved for the shared
anonymous user record. -/
def ANONYMOUS_USER_ID : Nat := 0

/-- Modelled from the spec: `get_anonymous_user` (imported from
`kpi.models.object_permission`, not under `src/`) returns the well-known
shared "anonymous" identity, a real user record (hence `is_anonymous = false`,
`is_superuser = false`) with the reserved primary key. -/
def get_anonymous_user : User :=
  { id := ANONYMOUS_USER_ID
    username := "AnonymousUser"
    is_superuser := false
    is_anonymous := false }

/-- A resource (the rows of the queryset given to
`KpiObjectPermissionsFilter`).  `parent_discoverable_when_public` is the
joined value of the Django lookup `parent__discoverable_when_public=True`
(false when the resource has no parent). -/
structure Res where
  pk : Nat
  discoverable_when_public : Bool
  parent_discoverable_when_public : Bool
deriving DecidableEq

/-- The capabilities of the concrete model class behind the queryset: which
fields/relations exist.  A Django `.filter(...)` on a missing field raises
`FieldError`; the code uses try/except on that error, so the branch taken is
a function of these flags. -/
structure Schema where
  has_discoverable_when_public : Bool
  parent_has_discoverable_when_public : Bool
  has_subscriptions : Bool
  parent_has_subscriptions : Bool
deriving DecidableEq

/-- The read-only authorization data consulted by the filter:
`perms` holds (user id, permission codename, resource pk) grants;
`subs` holds (user id, resource pk) subscriptions declared on the resource
itself (`usercollectionsubscription__user`); `parentSubs` holds the joined
relation `parent__usercollectionsubscription__user` keyed by the resource. -/
structure Env where
  perms : List (Nat × String × Nat)
  subs : List (Nat × Nat)
  parentSubs : List (Nat × Nat)

/-- Modelled from the spec: `get_objects_for_user` (imported from
`kpi.models.object_permission`, not under `src/`) returns the objects of the
queryset for which the user holds the given permission via a grant
("all resources in set S visible to X under P"). -/
def get_objects_for_user (env : Env) (user : User) (permission : String)
    (queryset : List Res) : List Res :=
  queryset.filter (fun o => decide ((user.id, permission, o.pk) ∈ env.perms))

/-- Lines 58-65 of `filters.py`: anonymous principals get an empty
`owned_and_explicitly_shared` set (`queryset.none()`); everyone else gets
`get_objects_for_user(user, permission, queryset)`. -/
def ownedAndExplicitlyShared (env : Env) (permission : String) (user : User)
    (queryset : List Res) : List Res :=
  if user.is_anonymous then []
  else get_objects_for_user env user permission queryset

/-- Lines 74-84 of `filters.py`: `public.filter(discoverable_when_public=True)`,
falling back to the parent lookup on `FieldError`, and to an empty set when
neither the model nor its parent has the field. -/
def discoverableOf (schema : Schema) (pub : List Res) : List Res :=
  if schema.has_discoverable_when_public then
    pub.filter (fun o => o.discoverable_when_public)
  else if schema.parent_has_discoverable_when_public then
    pub.filter (fun o => o.parent_discoverable_when_public)
  else []

/-- Lines 93-103 of `filters.py`:
`public.filter(usercollectionsubscription__user=user)`, falling back to the
parent relation on `FieldError`, and to an empty set when neither exists.
Note the source filters `public`, not `discoverable`. -/
def subscribedOf (env : Env) (schema : Schema) (user : User)
    (pub : List Res) : List Res :=
  if schema.has_subscriptions then
    pub.filter (fun o => decide ((user.id, o.pk) ∈ env.subs))
  else if schema.parent_has_subscriptions then
    pub.filter (fun o => decide ((user.id, o.pk) ∈ env.parentSubs))
  else []

/-- Model of `KpiObjectPermissionsFilter.filter_queryset` (lines 39-105 of
`filters.py`).  `permission` stands for `perm_format % kwargs`;
`all_public` is the parsed `all_public` query parameter; `action` is
`view.action`.  Django's `(a | b).distinct()` over two filtered versions of
one queryset is modelled as `(a ++ b).dedup`. -/
def KpiObjectPermissionsFilter.filter_queryset (env : Env) (schema : Schema)
    (permission : String) (user : User) (all_public : Bool)
    (queryset : List Res) (action : String) : List Res :=
  if user.is_superuser && !(action == "list") then queryset
  else
    let owned_and_explicitly_shared :=
      ownedAndExplicitlyShared env permission user queryset
    let effective_user := if user.is_anonymous then get_anonymous_user else user
    let public := get_objects_for_user env get_anonymous_user permission queryset
    if !(action == "list") then
      (owned_and_explicitly_shared ++ public).dedup
    else
      let discoverable := discoverableOf schema public
      if all_public then
        (owned_and_explicitly_shared ++ discoverable).dedup
      else
        let subscribed := subscribedOf env schema effective_user public
        (owned_and_explicitly_shared ++ subscribed).dedup

/-! ## SearchFilter (`filters.py` lines 125-232) -/

/-- A row of the queryset handed to `SearchFilter` (an `Asset`-like model):
`parent` carries the parent's uid (`parent__uid` join), `none` when the
object has no parent, so `filter(parent=None)` is `parent = none` and
`filter(parent__uid=u)` is `parent = some u`. -/
structure Asset where
  pk : Nat
  asset_type : String
  parent : Option String
deriving DecidableEq

/-- Which of the fields referenced by SearchFilter's rewritten predicates
exist on the concrete model class (`FieldError` is raised by the ORM when a
filter names a missing field). -/
structure MSchema where
  has_asset_type : Bool
  has_parent_uid : Bool
deriving DecidableEq

/-- A document of the external full-text index: its content type tag
(`DJANGO_CT`), its textual identifier (`django_id`) and the optional
permission-carrying field. -/
structure SearchDoc where
  django_ct : String
  django_id : String
  users_granted_permission : List String
deriving DecidableEq

/-- The state of the haystack/Whoosh index consulted by the fallback path:
its documents and whether the model's haystack index class has a
`users_granted_permission` field. -/
structure SearchIndexState where
  docs : List SearchDoc
  has_users_granted_permission : Bool

/-- The exceptions `SearchFilter.filter_queryset` can raise:
`notImplementedError` for a non-Whoosh backend (line 194), `indexError` from
`type_query.split(':')[1]` on a piece without a colon (line 172), and
`valueError` from coercing a non-numeric `django_id` (line 229). -/
inductive SearchError
  | notImplementedError
  | indexError
  | valueError
deriving DecidableEq

/-- The `COMMON_QUERY_TO_ORM_FILTER` table (lines 145-156), returning the
asset types of the ORM predicate (a single-element list models the equality
filter `{'asset_type': t}`, several elements model `asset_type__in`).  Every
entry's predicate references the `asset_type` field. -/
def COMMON_QUERY_TO_ORM_FILTER (q : String) : Option (List String) :=
  if q = "asset_type:block" then some ["block"]
  else if q = "asset_type:question" then some ["question"]
  else if q = "asset_type:template" then some ["template"]
  else if q = "asset_type:survey" then some ["survey"]
  else if q = "asset_type:question OR asset_type:block" then
    some ["question", "block"]
  else if q = "asset_type:question OR asset_type:block OR asset_type:template" then
    some ["question", "block", "template"]
  else none

/-! The `library_collection_pattern` regex (line 130):
  (((?:asset_type:(?:[^ ]+)(?: OR )*)+)) AND ((parent__uid:([^)]+)))
modelled as a backtracking matcher over character lists, mirroring the
regex engine's greedy, leftmost preference order.  `re.match` anchors at
the start of the string and allows trailing characters. -/

/-- The maximal leading run of non-space characters and the remainder
(the greedy extent of one `[^ ]+`). -/
def maxNonSpace : List Char → List Char × List Char
  | [] => ([], [])
  | c :: cs =>
    if c = ' ' then ([], c :: cs)
    else
      let (t, r) := maxNonSpace cs
      (c :: t, r)

/-- All ways `[^ ]+` can match a nonempty leading run, greedy (longest)
first; each entry is (consumed, rest). -/
def tokenSplits (cs : List Char) : List (List Char × List Char) :=
  let (t, r) := maxNonSpace cs
  (List.range t.length).map
    (fun i => (t.take (t.length - i), (t.drop (t.length - i)) ++ r))

/-- All rests after `(?: OR )*`, greedy (most copies consumed) first. -/
def orStarRests : List Char → List (List Char)
  | ' ' :: 'O' :: 'R' :: ' ' :: rest =>
    orStarRests rest ++ [' ' :: 'O' :: 'R' :: ' ' :: rest]
  | cs => [cs]

/-- Match a literal character sequence, returning the remainder. -/
def stripLit : List Char → List Char → Option (List Char)
  | [], cs => some cs
  | _ :: _, [] => none
  | p :: ps, c :: cs => if p = c then stripLit (ps) cs else none

/-- All rests after one-or-more iterations of
`asset_type:(?:[^ ]+)(?: OR )*`, in the regex engine's backtracking order
(within an iteration: longest token first, most ` OR ` copies first; more
iterations preferred over stopping).  `fuel` bounds the recursion; every
iteration consumes at least the literal, so `cs.length` is ample. -/
def plusRests (fuel : Nat) (cs : List Char) : List (List Char) :=
  match fuel with
  | 0 => []
  | fuel + 1 =>
    match stripLit "asset_type:".toList cs with
    | none => []
    | some afterLit =>
      ((tokenSplits afterLit).map (fun s =>
        ((orStarRests s.2).map (fun afterOr =>
          plusRests fuel afterOr ++ [afterOr])).flatten)).flatten

/-- The maximal leading run of non-`)` characters and the remainder
(the greedy extent of `[^)]+`). -/
def spanNotRParen : List Char → List Char × List Char
  | [] => ([], [])
  | c :: cs =>
    if c = ')' then ([], c :: cs)
    else
      let (t, r) := spanNotRParen cs
      (c :: t, r)

/-- Match the tail `) AND (parent__uid:([^)]+))` of the pattern, returning
the second capture group.  (`[^)]+` cannot contain `)`, so only its maximal
extent can be followed by the closing `)`; trailing characters are allowed
because `re.match` does not anchor the end.) -/
def parentUidMatch (cs : List Char) : Option (List Char) :=
  match stripLit ") AND (parent__uid:".toList cs with
  | none => none
  | some rest =>
    let (uid, rest2) := spanNotRParen rest
    match uid, rest2 with
    | [], _ => none
    | _ :: _, ')' :: _ => some uid
    | _ :: _, _ => none

/-- Try the candidate rests of the `+` group in preference order; on the
first whose remainder matches the pattern's tail, return (group 1, group 2).
Every candidate is a suffix of `orig`, so group 1 is the consumed prefix. -/
def firstUidMatch (orig : List Char) : List (List Char) → Option (String × String)
  | [] => none
  | r :: rs =>
    match parentUidMatch r with
    | some uid =>
      some (String.mk (orig.take (orig.length - r.length)), String.mk uid)
    | none => firstUidMatch orig rs

/-- Model of `SearchFilter.library_collection_pattern.match(q)` (lines 130-132, 169):
`none` on a miss, otherwise the two capture groups. -/
def libraryCollectionMatch (q : String) : Option (String × String) :=
  match q.toList with
  | '(' :: rest => firstUidMatch rest (plusRests (rest.length + 1) rest)
  | _ => none

/-- Python's `str.split(sep)` with a nonempty separator: scan left to
right, cutting at each non-overlapping occurrence of `sep`.  `fuel` is a
structural recursion bound (any value above the input length is exact). -/
def pySplitAux (sep : List Char) (fuel : Nat) (acc : List Char)
    (cs : List Char) : List (List Char) :=
  match fuel with
  | 0 => [acc.reverse]
  | fuel + 1 =>
    match stripLit sep cs with
    | some rest => acc.reverse :: pySplitAux sep fuel [] rest
    | none =>
      match cs with
      | [] => [acc.reverse]
      | c :: cs2 => pySplitAux sep fuel (c :: acc) cs2

/-- Python's `str.split(sep)` for a nonempty separator. -/
def pySplit (sep s : String) : List String :=
  (pySplitAux sep.toList (s.toList.length + 1) [] s.toList).map String.mk

/-- Lines 171-175: `type_query.split(':')[1]` over
`match.groups()[0].split(' OR ')`; a piece with no colon raises
`IndexError`. -/
def patternAssetTypes (g1 : String) : Except SearchError (List String) :=
  (pySplit " OR " g1).mapM (fun t =>
    match (pySplit ":" t).get? 1 with
    | some s => Except.ok s
    | none => Except.error SearchError.indexError)

/-- Decimal digits to a number, `none` when empty or non-numeric
(the `django_id` values are decimal primary-key strings). -/
def digitsToNat (acc : Nat) : List Char → Option Nat
  | [] => some acc
  | c :: cs => if c.isDigit then digitsToNat (acc * 10 + (c.toNat - 48)) cs else none

/-- Line 229: coerce each `django_id` with `pk_type(...)` (`int` here);
Python raises `ValueError` on a non-numeric string. -/
def coercePks : List String → Except SearchError (List Nat)
  | [] => Except.ok []
  | s :: ss =>
    match (match s.toList with | [] => none | l => digitsToNat 0 l) with
    | none => Except.error SearchError.valueError
    | some n =>
      match coercePks ss with
      | Except.error e => Except.error e
      | Except.ok ns => Except.ok (n :: ns)

/-- The query parameters consulted by `SearchFilter`. -/
structure SearchParams where
  q : Option String
  parent : Option String
deriving DecidableEq

/-- Model of `SearchFilter.filter_queryset` (lines 134-232).  The collaborators are
explicit arguments: `backendIsWhoosh` (is the configured haystack backend a
`WhooshSearchBackend`), `index` (the Whoosh index state), `matchesQuery q d`
(does document `d` satisfy the parsed Whoosh query for `q` — the query
language internals are outside this layer's contract), `modelCt` (the
`DJANGO_CT` tag of the queryset's model) and `username`
(`request.user.username`). -/
def SearchFilter.filter_queryset (schema : MSchema) (backendIsWhoosh : Bool)
    (index : SearchIndexState) (matchesQuery : String → SearchDoc → Bool)
    (modelCt : String) (username : String) (params : SearchParams)
    (queryset0 : List Asset) : Except SearchError (List Asset) :=
  let queryset :=
    if params.parent = some "" then
      queryset0.filter (fun a => decide (a.parent = none))
    else queryset0
  match params.q with
  | none => Except.ok queryset
  | some q =>
    match COMMON_QUERY_TO_ORM_FILTER q with
    | some types =>
      if schema.has_asset_type then
        Except.ok (queryset.filter (fun a => types.contains a.asset_type))
      else Except.ok []
    | none =>
      match libraryCollectionMatch q with
      | some (g1, parent_uid) =>
        match patternAssetTypes g1 with
        | Except.error e => Except.error e
        | Except.ok asset_types =>
          if schema.has_asset_type && schema.has_parent_uid then
            Except.ok (queryset.filter (fun a =>
              asset_types.contains a.asset_type &&
                decide (a.parent = some parent_uid)))
          else Except.ok []
      | none =>
        let queryset_pks := queryset.map (fun a => a.pk)
        if queryset_pks.length = 0 then Except.ok queryset
        else if !backendIsWhoosh then Except.error SearchError.notImplementedError
        else
          let filterMatch := fun d : SearchDoc =>
            d.django_ct == modelCt &&
              (!index.has_users_granted_permission ||
                d.users_granted_permission.contains username)
          let results := index.docs.filter (fun d => matchesQuery q d && filterMatch d)
          if results.isEmpty && (index.docs.filter filterMatch).isEmpty then
            Except.ok queryset
          else
            match coercePks (results.map (fun d => d.django_id)) with
            | Except.error e => Except.error e
            | Except.ok results_pks =>
              let filter_pks := results_pks.filter (fun p => queryset_pks.contains p)
              Except.ok (queryset.filter (fun a => filter_pks.contains a.pk))

/-! ## KpiAssignedObjectPermissionsFilter (`filters.py` lines 235-259) -/

/-- A permission-grant record (`ObjectPermission` rows): the grantee, and
the target resource as a (content type id, object id) pair.  Object ids are
only unique within a content type. -/
structure ObjectPermission where
  pk : Nat
  user : Nat
  content_type : Nat
  object_id : Nat
deriving DecidableEq

/-- Model of `KpiAssignedObjectPermissionsFilter.filter_queryset` (lines 236-259):
anonymous requesters are replaced by the shared anonymous user; a superuser
sees everything; the anonymous identity sees only its own grants; any other
user sees the grants whose `object_id` is among the object ids of grants
addressed to them — the inner queryset restricts by `content_type_id`, the
outer `filter(object_id__in=...)` does not. -/
def KpiAssignedObjectPermissionsFilter.filter_queryset (req_user : User)
    (queryset : List ObjectPermission) : List ObjectPermission :=
  let user := if req_user.is_anonymous then get_anonymous_user else req_user
  if user.is_superuser then queryset
  else if user.id = ANONYMOUS_USER_ID then
    queryset.filter (fun p => p.user == user.id)
  else
    let content_type_ids := (queryset.map (fun p => p.content_type)).dedup
    let object_permission_ids :=
      (content_type_ids.map (fun content_type_id =>
        (queryset.filter (fun p =>
          ((queryset.filter (fun q =>
            q.content_type == content_type_id && q.user == user.id)).map
              (fun q => q.object_id)).contains p.object_id)).map
          (fun p => p.pk))).flatten
    queryset.filter (fun p => object_permission_ids.contains p.pk)

/-! ## AttachmentFilter (`filters.py` lines 262-307) -/

/-- A question record carried by an attachment (`att.question`, a report
dict, possibly absent).  `in_latest_version` models the dict's
`in_latest_version` entry as consulted by `question.get("in_latest_version")`. -/
structure Question where
  name : String
  in_latest_version : Bool
deriving DecidableEq

/-- A submission record carried by an attachment's instance
(`att.instance.submission`, possibly absent). -/
structure SubmissionData where
  label : String
deriving DecidableEq

/-- Model of `att.instance`: the owning submission instance. -/
structure Instance where
  id : Nat
  uuid : String
  submission : Option SubmissionData
deriving DecidableEq

/-- An attachment record (the rows of the queryset handed to
`AttachmentFilter`). -/
structure Attachment where
  pk : Nat
  mimetype : String
  question_index : Nat
  question : Option Question
  inst : Instance  -- models the Python attribute named instance (a Lean keyword)
deriving DecidableEq

/-- The query parameters consulted by `AttachmentFilter`
(`type`, `group_by`, `order_by`, `sort`, `all`), `none` when absent. -/
structure AttParams where
  type : Option String
  group_by : Option String
  order_by : Option String
  sort : Option String
  all : Option String
deriving DecidableEq

/-- Python's `a or b` over optional query-parameter strings: `a` unless it
is absent or empty (falsy). -/
def pyOr (a b : Option String) : Option String :=
  match a with
  | some s => if s = "" then b else some s
  | none => b

/-- Stable insertion into a list sorted by `le` (a total preorder): the new
element goes before the first entry it is not `le`-preceded by, so elements
comparing equal keep their original relative order. -/
def insertLe (le : α → α → Bool) (x : α) : List α → List α
  | [] => [x]
  | y :: ys => if le x y then x :: y :: ys else y :: insertLe le x ys

/-- A stable sort (models both Python's `sorted(..., key=...)` and the
deterministic `order_by` of the database layer). -/
def stableSortBy (le : α → α → Bool) : List α → List α
  | [] => []
  | x :: xs => insertLe le x (stableSortBy le xs)

/-- Model of `queryset.order_by(sort)` with `sort` either `'pk'` or `'-pk'`
(lines 272-274). -/
def orderByPk (desc : Bool) (l : List Attachment) : List Attachment :=
  if desc then stableSortBy (fun a b => decide (b.pk ≤ a.pk)) l
  else stableSortBy (fun a b => decide (a.pk ≤ b.pk)) l

/-- Model of `itertools.groupby(l, key)`: the maximal consecutive runs of equal key,
each with its key. -/
def groupRuns [DecidableEq κ] (key : α → κ) : List α → List (κ × List α)
  | [] => []
  | x :: xs =>
    match groupRuns key xs with
    | [] => [(key x, [x])]
    | (k, run) :: rest =>
      if key x = k then (k, x :: run) :: rest
      else (key x, [x]) :: (k, run) :: rest

/-- The content of a grouped question row: the question's own data, or the
synthetic `{'number': question_index}` dict built when the run has no
question record (line 286). -/
inductive QuestionRowBase
  | real (q : Question)
  | synthetic (number : Nat)
deriving DecidableEq

/-- Truthiness of `question.get("in_latest_version")` truthiness for a row: the question's
flag, and falsy (the key is absent) on a synthetic `{'number': ...}` dict. -/
def rowInLatestVersion : QuestionRowBase → Bool
  | QuestionRowBase.real q => q.in_latest_version
  | QuestionRowBase.synthetic _ => false

/-- A row of the question-grouped report: the (possibly synthetic) question
dict with its `attachments` and `index` entries (lines 286-290). -/
structure QuestionRow where
  base : QuestionRowBase
  attachments : List Attachment
  index : Nat
deriving DecidableEq

/-- The content of a grouped submission row: the submission data, or the
synthetic `{'instance_uuid': uuid}` dict (line 300). -/
inductive SubmissionRowBase
  | real (s : SubmissionData)
  | synthetic (instance_uuid : String)
deriving DecidableEq

/-- A row of the submission-grouped report (lines 300-303). -/
structure SubmissionRow where
  base : SubmissionRowBase
  attachments : List Attachment
  index : Nat
deriving DecidableEq

/-- The three shapes `AttachmentFilter.filter_queryset` can return: a plain
(possibly sorted) attachment list, or a grouped report. -/
inductive AttachmentResult
  | attachments (l : List Attachment)
  | questionRows (l : List QuestionRow)
  | submissionRows (l : List SubmissionRow)
deriving DecidableEq

/-- The `groupby` key for question grouping (line 285). -/
def questionKey (a : Attachment) : Nat × Option Question :=
  (a.question_index, a.question)

/-- Model of `qid[1] if qid[1] else {'number': qid[0]}` (line 286). -/
def questionRowBaseOf : Nat × Option Question → QuestionRowBase
  | (_, some q) => QuestionRowBase.real q
  | (n, none) => QuestionRowBase.synthetic n

/-- Lines 283-291: enumerate the consecutive (question_index, question) runs
and keep a row exactly when `all or (not all and
question.get("in_latest_version"))`.  The ordinal comes from `enumerate`,
so it counts dropped runs too. -/
def buildQuestionRows (all : Bool) (l : List Attachment) : List QuestionRow :=
  ((groupRuns questionKey l).enum.filterMap (fun ir =>
    let base := questionRowBaseOf ir.2.1
    if all || (!all && rowInLatestVersion base) then
      some { base := base, attachments := ir.2.2, index := ir.1 }
    else none))

/-- The `groupby` key for submission grouping (line 299). -/
def submissionKey (a : Attachment) : String × Option SubmissionData :=
  (a.inst.uuid, a.inst.submission)

/-- Model of `sid[1] if sid[1] else {'instance_uuid': sid[0]}` (line 300). -/
def submissionRowBaseOf : String × Option SubmissionData → SubmissionRowBase
  | (_, some s) => SubmissionRowBase.real s
  | (u, none) => SubmissionRowBase.synthetic u

/-- Lines 297-304: enumerate the consecutive (uuid, submission) runs; every
run yields a row. -/
def buildSubmissionRows (l : List Attachment) : List SubmissionRow :=
  (groupRuns submissionKey l).enum.map (fun ir =>
    { base := submissionRowBaseOf ir.2.1, attachments := ir.2.2, index := ir.1 })

/-- Lines 276-277: the optional case-insensitive mimetype-prefix filter
(`mimetype__istartswith`); an absent or empty `type` parameter is falsy and
leaves the queryset alone. -/
def mimetypeFilter (t : Option String) (queryset : List Attachment) : List Attachment :=
  match t with
  | some t => if t = "" then queryset
              else queryset.filter (fun a => a.mimetype.toLower.startsWith t.toLower)
  | none => queryset

/-- Line 280-281: `sorted(..., key=lambda att: att.question_index)` — a
stable sort on `question_index` alone (NOT on the pair used as `groupby`
key). -/
def questionIndexSort (l : List Attachment) : List Attachment :=
  stableSortBy (fun a b => decide (a.question_index ≤ b.question_index)) l

/-- Line 294-295: `sorted(..., key=lambda att: (att.instance.id,
att.question_index))` — a stable sort on the lexicographic pair. -/
def submissionSort (l : List Attachment) : List Attachment :=
  stableSortBy (fun a b =>
    decide (a.inst.id < b.inst.id ∨
      (a.inst.id = b.inst.id ∧ a.question_index ≤ b.question_index))) l

/-- Model of `AttachmentFilter.filter_queryset` (lines 263-307). -/
def AttachmentFilter.filter_queryset (params : AttParams)
    (queryset0 : List Attachment) : AttachmentResult :=
  let all := (params.all.getD "true") = "true"
  let order_by := pyOr params.group_by params.order_by
  let desc := params.sort = some "desc"
  let queryset := mimetypeFilter params.type queryset0
  if order_by = some "question" then
    let sorted2 := questionIndexSort (orderByPk desc queryset)
    if params.group_by = some "question" then
      AttachmentResult.questionRows (buildQuestionRows all sorted2)
    else AttachmentResult.attachments sorted2
  else if order_by = some "submission" then
    let sorted2 := submissionSort (orderByPk desc queryset)
    if params.group_by = some "submission" then
      AttachmentResult.submissionRows (buildSubmissionRows sorted2)
    else AttachmentResult.attachments sorted2
  else AttachmentResult.attachments (orderByPk desc queryset)

/-! ## Helper lemmas -/

theorem mem_dedup_append [DecidableEq α] {a b : List α} {x : α} :
    x ∈ (a ++ b).dedup ↔ x ∈ a ∨ x ∈ b := by
  simp [List.mem_dedup]

theorem get_objects_for_user_subset (env : Env) (user : User) (permission : String)
    (queryset : List Res) :
    ∀ x ∈ get_objects_for_user env user permission queryset, x ∈ queryset := by
  intro x hx
  exact List.mem_of_mem_filter hx

theorem ownedAndExplicitlyShared_subset (env : Env) (permission : String) (user : User)
    (queryset : List Res) :
    ∀ x ∈ ownedAndExplicitlyShared env permission user queryset, x ∈ queryset := by
  intro x hx
  unfold ownedAndExplicitlyShared at hx
  split at hx
  · simp at hx
  · exact List.mem_of_mem_filter hx

theorem discoverableOf_subset (schema : Schema) (pub : List Res) :
    ∀ x ∈ discoverableOf schema pub, x ∈ pub := by
  intro x hx
  unfold discoverableOf at hx
  split at hx
  · exact List.mem_of_mem_filter hx
  · split at hx
    · exact List.mem_of_mem_filter hx
    · simp at hx

theorem subscribedOf_subset (env : Env) (schema : Schema) (user : User) (pub : List Res) :
    ∀ x ∈ subscribedOf env schema user pub, x ∈ pub := by
  intro x hx
  unfold subscribedOf at hx
  split at hx
  · exact List.mem_of_mem_filter hx
  · split at hx
    · exact List.mem_of_mem_filter hx
    · simp at hx

/-! ## Concrete instances used by counterexamples and witnesses -/

/-- A plain authenticated, non-superuser principal. -/
def aliceU : User := { id := 10, username := "alice", is_superuser := false, is_anonymous := false }

/-- A superuser principal. -/
def rootU : User := { id := 2, username := "root", is_superuser := true, is_anonymous := false }

/-- An anonymous request principal. -/
def anonReqU : User := { id := 0, username := "", is_superuser := false, is_anonymous := true }

/-- A resource that is public but not discoverable. -/
def o1 : Res := { pk := 1, discoverable_when_public := false, parent_discoverable_when_public := false }

/-- Authorization data: the anonymous user may view resource 1 (it is
public), alice holds no grant on it but has subscribed to it. -/
def envC : Env := { perms := [(ANONYMOUS_USER_ID, "view_asset", 1)], subs := [(10, 1)], parentSubs := [] }

/-- A model with a discoverability field and a subscription relation of its
own. -/
def schemaC : Schema :=
  { has_discoverable_when_public := true
    parent_has_discoverable_when_public := false
    has_subscriptions := true
    parent_has_subscriptions := false }

/-! ## C1 -/

/-- C1 is false on the code: the subscription filter is applied to `public`
(line 94), not to `discoverable`, so a "list" for an authenticated
non-superuser without `all_public` can return a subscribed public object
that is not discoverable.  Here resource 1 is public, has
`discoverable_when_public = False` (so `discoverable` is empty), alice holds
no direct grant on it, yet her subscription puts it in the returned set —
refuting "every returned non-owned, non-shared object is discoverable". -/
theorem C1_counterexample :
    KpiObjectPermissionsFilter.filter_queryset envC schemaC "view_asset" aliceU false [o1] "list" = [o1]
    ∧ ownedAndExplicitlyShared envC "view_asset" aliceU [o1] = []
    ∧ discoverableOf schemaC (get_objects_for_user envC get_anonymous_user "view_asset" [o1]) = [] := by
  refine ⟨rfl, rfl, rfl⟩

/-- C1 (amended): for an authenticated non-superuser principal listing
without `all_public`, the result is exactly `ownedOrShared ∪ subscribed`,
where `subscribed` is the subset of the PUBLIC objects (not merely the
discoverable ones) for which a Subscription of the principal exists, checked
on the resource then its parent, else empty; every returned non-owned,
non-shared object is therefore public (but not necessarily discoverable). -/
theorem C1_amended (env : Env) (schema : Schema) (permission : String) (u : User)
    (qs : List Res) (hanon : u.is_anonymous = false) (hsup : u.is_superuser = false) :
    (∀ x, x ∈ KpiObjectPermissionsFilter.filter_queryset env schema permission u false qs "list" ↔
        (x ∈ get_objects_for_user env u permission qs ∨
         x ∈ subscribedOf env schema u (get_objects_for_user env get_anonymous_user permission qs))) ∧
    (∀ x ∈ subscribedOf env schema u (get_objects_for_user env get_anonymous_user permission qs),
        x ∈ get_objects_for_user env get_anonymous_user permission qs) := by
  constructor
  · intro x
    unfold KpiObjectPermissionsFilter.filter_queryset
    simp [hanon, hsup, ownedAndExplicitlyShared, List.mem_dedup]
  · exact subscribedOf_subset env schema u (get_objects_for_user env get_anonymous_user permission qs)

/-- Witness for C1_amended at a concrete input. -/
theorem C1_amended_witness :
    (∀ x, x ∈ KpiObjectPermissionsFilter.filter_queryset envC schemaC "view_asset" aliceU false [o1] "list" ↔
        (x ∈ get_objects_for_user envC aliceU "view_asset" [o1] ∨
         x ∈ subscribedOf envC schemaC aliceU (get_objects_for_user envC get_anonymous_user "view_asset" [o1]))) ∧
    (∀ x ∈ subscribedOf envC schemaC aliceU (get_objects_for_user envC get_anonymous_user "view_asset" [o1]),
        x ∈ get_objects_for_user envC get_anonymous_user "view_asset" [o1]) :=
  C1_amended envC schemaC "view_asset" aliceU [o1] rfl rfl

/-! ## C2 -/

/-- C2: a superuser performing a non-"list" operation receives the base
queryset unchanged (lines 42-45); for a "list" the superuser flag is never
consulted again, so the result is computed by exactly the pipeline used for
any other principal (flipping `is_superuser` off changes nothing). -/
theorem C2_superuser (env : Env) (schema : Schema) (permission : String) (u : User)
    (all_public : Bool) (qs : List Res) (action : String) (hsup : u.is_superuser = true) :
    (action ≠ "list" →
      KpiObjectPermissionsFilter.filter_queryset env schema permission u all_public qs action = qs) ∧
    (KpiObjectPermissionsFilter.filter_queryset env schema permission u all_public qs "list" =
      KpiObjectPermissionsFilter.filter_queryset env schema permission
        { u with is_superuser := false } all_public qs "list") := by
  constructor
  · intro hne
    unfold KpiObjectPermissionsFilter.filter_queryset
    simp [hsup, hne]
  · unfold KpiObjectPermissionsFilter.filter_queryset
    by_cases ha : u.is_anonymous = true <;>
      simp [ha, ownedAndExplicitlyShared, get_objects_for_user, subscribedOf]

/-- Witness for C2_superuser at a concrete input. -/
theorem C2_superuser_witness :
    (("retrieve" ≠ "list") →
      KpiObjectPermissionsFilter.filter_queryset envC schemaC "view_asset" rootU false [o1] "retrieve" = [o1]) ∧
    ((("retrieve" : String) ≠ "list") ∧
      KpiObjectPermissionsFilter.filter_queryset envC schemaC "view_asset" rootU false [o1] "list" =
        KpiObjectPermissionsFilter.filter_queryset envC schemaC "view_asset"
          { rootU with is_superuser := false } false [o1] "list") :=
  ⟨(C2_superuser envC schemaC "view_asset" rootU false [o1] "retrieve" rfl).1,
   by decide,
   (C2_superuser envC schemaC "view_asset" rootU false [o1] "list" rfl).2⟩

/-! ## C3 -/

/-- C3: for an anonymous principal the `ownedOrShared` component is always
empty, and a "list" returns exactly the discoverable set when `all_public`
is requested and exactly the subscribed set otherwise (subscriptions being
those of the shared anonymous identity the principal resolves to). -/
theorem C3_anonymous (env : Env) (schema : Schema) (permission : String) (u : User)
    (all_public : Bool) (qs : List Res) (hanon : u.is_anonymous = true) :
    (ownedAndExplicitlyShared env permission u qs = []) ∧
    (all_public = true →
      ∀ x, x ∈ KpiObjectPermissionsFilter.filter_queryset env schema permission u all_public qs "list" ↔
        x ∈ discoverableOf schema (get_objects_for_user env get_anonymous_user permission qs)) ∧
    (all_public = false →
      ∀ x, x ∈ KpiObjectPermissionsFilter.filter_queryset env schema permission u all_public qs "list" ↔
        x ∈ subscribedOf env schema get_anonymous_user
          (get_objects_for_user env get_anonymous_user permission qs)) := by
  refine ⟨?_, ?_, ?_⟩
  · unfold ownedAndExplicitlyShared
    simp [hanon]
  · intro hap x
    unfold KpiObjectPermissionsFilter.filter_queryset
    simp [hanon, hap, ownedAndExplicitlyShared, List.mem_dedup]
  · intro hap x
    unfold KpiObjectPermissionsFilter.filter_queryset
    simp [hanon, hap, ownedAndExplicitlyShared, List.mem_dedup]

/-- Witness for C3_anonymous at a concrete input. -/
theorem C3_anonymous_witness :
    (ownedAndExplicitlyShared envC "view_asset" anonReqU [o1] = []) ∧
    ((true : Bool) = true →
      ∀ x, x ∈ KpiObjectPermissionsFilter.filter_queryset envC schemaC "view_asset" anonReqU true [o1] "list" ↔
        x ∈ discoverableOf schemaC (get_objects_for_user envC get_anonymous_user "view_asset" [o1])) ∧
    ((true : Bool) = false →
      ∀ x, x ∈ KpiObjectPermissionsFilter.filter_queryset envC schemaC "view_asset" anonReqU true [o1] "list" ↔
        x ∈ subscribedOf envC schemaC get_anonymous_user
          (get_objects_for_user envC get_anonymous_user "view_asset" [o1])) :=
  C3_anonymous envC schemaC "view_asset" anonReqU true [o1] rfl

/-! ## C4 -/

/-- C4: every filtering operation returns a subset of its input collection —
`KpiObjectPermissionsFilter`, `SearchFilter` (whenever it returns rather
than raising) and `KpiAssignedObjectPermissionsFilter` never introduce
objects that were not in the input. -/
theorem C4_subset :
    (∀ (env : Env) (schema : Schema) (permission : String) (u : User) (all_public : Bool)
       (qs : List Res) (action : String) (x : Res),
       x ∈ KpiObjectPermissionsFilter.filter_queryset env schema permission u all_public qs action →
       x ∈ qs) ∧
    (∀ (schema : MSchema) (biw : Bool) (index : SearchIndexState)
       (mq : String → SearchDoc → Bool) (ct un : String) (params : SearchParams)
       (qs r : List Asset) (x : Asset),
       SearchFilter.filter_queryset schema biw index mq ct un params qs = Except.ok r →
       x ∈ r → x ∈ qs) ∧
    (∀ (u : User) (qs : List ObjectPermission) (x : ObjectPermission),
       x ∈ KpiAssignedObjectPermissionsFilter.filter_queryset u qs → x ∈ qs) := by
  refine ⟨?_, ?_, ?_⟩
  · intro env schema permission u all_public qs action x hx
    simp only [KpiObjectPermissionsFilter.filter_queryset] at hx
    repeat' split at hx
    all_goals first
      | exact hx
      | (rcases mem_dedup_append.1 hx with h1 | h1
         · exact ownedAndExplicitlyShared_subset env permission u qs x h1
         · first
           | exact get_objects_for_user_subset env get_anonymous_user permission qs x h1
           | exact get_objects_for_user_subset env get_anonymous_user permission qs x
               (discoverableOf_subset schema _ x h1)
           | exact get_objects_for_user_subset env get_anonymous_user permission qs x
               (subscribedOf_subset env schema _ _ x h1))
  · intro schema biw index mq ct un params qs r x h hx
    simp only [SearchFilter.filter_queryset] at h
    repeat' split at h
    all_goals try cases h
    all_goals first
      | exact hx
      | exact List.mem_of_mem_filter hx
      | exact List.mem_of_mem_filter (List.mem_of_mem_filter hx)
      | simp at hx
  · intro u qs x hx
    simp only [KpiAssignedObjectPermissionsFilter.filter_queryset] at hx
    repeat' split at hx
    all_goals first
      | exact hx
      | exact List.mem_of_mem_filter hx

/-- Witness for C4_subset at a concrete input. -/
theorem C4_subset_witness :
    (o1 ∈ KpiObjectPermissionsFilter.filter_queryset envC schemaC "view_asset" aliceU false [o1] "list") ∧
    o1 ∈ [o1] :=
  ⟨by decide,
   C4_subset.1 envC schemaC "view_asset" aliceU false [o1] "list" o1 (by decide)⟩

/-! ## C5 -/

/-- A grant addressed to alice on object 5 of content type 1. -/
def op1 : ObjectPermission := { pk := 1, user := 10, content_type := 1, object_id := 5 }

/-- A grant addressed to another user on object 5 of content type 2: a
cross-content-type object-id collision with `op1`. -/
def op2 : ObjectPermission := { pk := 2, user := 99, content_type := 2, object_id := 5 }

/-- C5: the code, evaluated at the failing input.  The loop over distinct
content types (lines 251-258) restricts only the INNER queryset
(`content_type_id=...`, `user=user`); the outer
`queryset.filter(object_id__in=...)` carries no content-type constraint, so
the content-type-2 grant `op2` — addressed to someone else — is returned to
alice merely because its `object_id` collides numerically with her
accessible object id in content type 1.  The per-content-type partition the
loop exists to provide (and which the spec describes) is thereby lost. -/
theorem C5_theorem :
    KpiAssignedObjectPermissionsFilter.filter_queryset aliceU [op1, op2] = [op1, op2]
    ∧ op2.content_type ≠ op1.content_type ∧ op2.user ≠ aliceU.id := by
  refine ⟨rfl, by decide, by decide⟩

/-! ## C6 -/

/-- C6: if a free-text query reaches the Whoosh fallback (misses the table
and the pattern, nonempty access-controlled set, Whoosh backend) and the
index holds no document at all for the queried model's content type, the
filter returns the access-controlled set untouched (lines 218-224): the
query search and the validity probe are both empty, so the index is treated
as not populated. -/
theorem C6_empty_index (schema : MSchema) (index : SearchIndexState)
    (mq : String → SearchDoc → Bool) (modelCt username q : String) (qs : List Asset)
    (h1 : COMMON_QUERY_TO_ORM_FILTER q = none)
    (h2 : libraryCollectionMatch q = none)
    (h3 : qs ≠ [])
    (h4 : ∀ d ∈ index.docs, d.django_ct ≠ modelCt) :
    SearchFilter.filter_queryset schema true index mq modelCt username
      { q := some q, parent := none } qs = Except.ok qs := by
  have hfm : ∀ p : SearchDoc → Bool,
      index.docs.filter (fun d => p d &&
        (d.django_ct == modelCt &&
          (!index.has_users_granted_permission ||
            d.users_granted_permission.contains username))) = [] := by
    intro p
    refine List.filter_eq_nil_iff.2 ?_
    intro d hd
    have := h4 d hd
    simp [this]
  simp only [SearchFilter.filter_queryset, h1, h2]
  have hlen : ¬ (qs.map (fun a => a.pk)).length = 0 := by
    simpa [List.length_eq_zero] using h3
  simp only [reduceCtorEq, reduceIte, hlen]
  have h5 : index.docs.filter (fun d => mq q d &&
      (d.django_ct == modelCt &&
        (!index.has_users_granted_permission ||
          d.users_granted_permission.contains username))) = [] := hfm (fun d => mq q d)
  have h6 : index.docs.filter (fun d =>
      d.django_ct == modelCt &&
        (!index.has_users_granted_permission ||
          d.users_granted_permission.contains username)) = [] := by
    have := hfm (fun _ => true)
    simpa using this
  rw [h5, h6]
  simp

/-- An asset row used by the search-filter witnesses. -/
def asset1 : Asset := { pk := 1, asset_type := "survey", parent := none }

/-- An index document for an unrelated content type. -/
def docOther : SearchDoc :=
  { django_ct := "other.model", django_id := "1", users_granted_permission := [] }

/-- Witness for C6_empty_index at a concrete input: the index holds one
document, but none for the queried content type. -/
theorem C6_empty_index_witness :
    SearchFilter.filter_queryset { has_asset_type := true, has_parent_uid := true } true
      { docs := [docOther], has_users_granted_permission := true }
      (fun _ _ => true) "kpi.asset" "alice" { q := some "dogs", parent := none } [asset1]
      = Except.ok [asset1] :=
  C6_empty_index { has_asset_type := true, has_parent_uid := true }
    { docs := [docOther], has_users_granted_permission := true }
    (fun _ _ => true) "kpi.asset" "alice" "dogs" [asset1]
    rfl rfl (by decide) (by decide)

/-! ## C7 -/

/-- C7 is false on the code as universally stated: a query can be
recognized by the structured pattern and still make the filter raise.  For
`"(asset_type:q OR ) AND (parent__uid:ab)"` the regex matches with first
capture group `"asset_type:q OR "`; splitting it on `" OR "` yields the
piece `""`, and `''.split(':')[1]` (line 172) raises `IndexError` before
the try/except around the ORM filter is ever reached — on a schema without
the `asset_type` field the result is an exception, not the empty set. -/
theorem C7_counterexample :
    libraryCollectionMatch "(asset_type:q OR ) AND (parent__uid:ab)" =
      some ("asset_type:q OR ", "ab")
    ∧ SearchFilter.filter_queryset { has_asset_type := false, has_parent_uid := false }
        true { docs := [], has_users_granted_permission := false } (fun _ _ => false)
        "kpi.asset" "u"
        { q := some "(asset_type:q OR ) AND (parent__uid:ab)", parent := none } []
        = Except.error SearchError.indexError := by
  refine ⟨rfl, rfl⟩

/-- C7 (amended): for every query recognized by the short-circuit table, if
the model lacks the `asset_type` field the filter returns the empty set
without raising; for every query recognized by the structured pattern WHOSE
TOKEN EXTRACTION SUCCEEDS (each piece of the first capture group, split on
the OR separator, contains a colon), if the model lacks `asset_type` or
`parent__uid` the filter returns the empty set without raising.  Pattern
queries whose capture group has doubled or trailing separators instead
raise `IndexError` before the schema is consulted. -/
theorem C7_amended :
    (∀ (schema : MSchema) (biw : Bool) (index : SearchIndexState)
       (mq : String → SearchDoc → Bool) (ct un q : String) (types : List String)
       (parent : Option String) (qs : List Asset),
       COMMON_QUERY_TO_ORM_FILTER q = some types →
       schema.has_asset_type = false →
       SearchFilter.filter_queryset schema biw index mq ct un
         { q := some q, parent := parent } qs = Except.ok []) ∧
    (∀ (schema : MSchema) (biw : Bool) (index : SearchIndexState)
       (mq : String → SearchDoc → Bool) (ct un q g1 uid : String) (types : List String)
       (parent : Option String) (qs : List Asset),
       COMMON_QUERY_TO_ORM_FILTER q = none →
       libraryCollectionMatch q = some (g1, uid) →
       patternAssetTypes g1 = Except.ok types →
       (schema.has_asset_type && schema.has_parent_uid) = false →
       SearchFilter.filter_queryset schema biw index mq ct un
         { q := some q, parent := parent } qs = Except.ok []) := by
  constructor
  · intro schema biw index mq ct un q types parent qs h1 h2
    simp only [SearchFilter.filter_queryset, h1, h2]
    simp
  · intro schema biw index mq ct un q g1 uid types parent qs h1 h2 h3 h4
    simp only [SearchFilter.filter_queryset, h1, h2, h3, h4]
    simp

/-- Witness for C7_amended at concrete inputs: the table entry
`asset_type:block` against a model without `asset_type`, and the pattern
query of the spec against a model without `parent__uid`. -/
theorem C7_amended_witness :
    (SearchFilter.filter_queryset { has_asset_type := false, has_parent_uid := true }
       true { docs := [], has_users_granted_permission := false } (fun _ _ => false)
       "kpi.asset" "u" { q := some "asset_type:block", parent := none } [asset1]
       = Except.ok []) ∧
    (SearchFilter.filter_queryset { has_asset_type := true, has_parent_uid := false }
       true { docs := [], has_users_granted_permission := false } (fun _ _ => false)
       "kpi.asset" "u"
       { q := some "(asset_type:question OR asset_type:block) AND (parent__uid:abc123)",
         parent := none } [asset1]
       = Except.ok []) :=
  ⟨C7_amended.1 { has_asset_type := false, has_parent_uid := true } true
     { docs := [], has_users_granted_permission := false } (fun _ _ => false)
     "kpi.asset" "u" "asset_type:block" ["block"] none [asset1] rfl rfl,
   C7_amended.2 { has_asset_type := true, has_parent_uid := false } true
     { docs := [], has_users_granted_permission := false } (fun _ _ => false)
     "kpi.asset" "u" "(asset_type:question OR asset_type:block) AND (parent__uid:abc123)"
     "asset_type:question OR asset_type:block" "abc123" ["question", "block"] none [asset1]
     rfl rfl rfl rfl⟩

/-! ## C8 -/

/-- C8: the library-collection query is rewritten by the pattern rule into
the conjunctive ORM predicate — exactly the objects whose type is question
or block and whose parent uid is abc123 — for every index state and backend
(the full-text index is never consulted: the result does not depend on it,
and no backend error can arise even for a non-Whoosh backend). -/
theorem C8_pattern_rewrite (biw : Bool) (index : SearchIndexState)
    (mq : String → SearchDoc → Bool) (modelCt username : String) (qs : List Asset) :
    SearchFilter.filter_queryset { has_asset_type := true, has_parent_uid := true } biw index mq
      modelCt username
      { q := some "(asset_type:question OR asset_type:block) AND (parent__uid:abc123)",
        parent := none } qs
    = Except.ok (qs.filter (fun a =>
        (a.asset_type == "question" || a.asset_type == "block") &&
          decide (a.parent = some "abc123"))) := by
  have h1 : COMMON_QUERY_TO_ORM_FILTER
      "(asset_type:question OR asset_type:block) AND (parent__uid:abc123)" = none := rfl
  have h2 : libraryCollectionMatch
      "(asset_type:question OR asset_type:block) AND (parent__uid:abc123)" =
      some ("asset_type:question OR asset_type:block", "abc123") := rfl
  have h3 : patternAssetTypes "asset_type:question OR asset_type:block" =
      Except.ok ["question", "block"] := rfl
  have hc : ∀ t : String, (["question", "block"] : List String).contains t =
      (t == "question" || t == "block") := by
    intro t
    by_cases ha : t = "question" <;> by_cases hb : t = "block" <;> simp [ha, hb, List.contains]
  simp only [SearchFilter.filter_queryset, h1, h2, h3]
  simp only [reduceCtorEq, reduceIte, Bool.and_self, ite_true]
  congr 1
  refine List.filter_congr ?_
  intro a _
  rw [hc]

/-! ## C9 -/

/-- Keeping a mapped element under an if-condition is the same as mapping
and then filtering, when the conditions agree pointwise. -/
theorem filterMap_if_eq_filter_map {α β : Type} (f : α → β) (p : α → Bool) (q : β → Bool)
    (hpq : ∀ x, p x = q (f x)) (l : List α) :
    l.filterMap (fun x => if p x then some (f x) else none) = (l.map f).filter q := by
  induction l with
  | nil => rfl
  | cons x xs ih =>
    cases h : p x
    · have h2 : q (f x) = false := by rw [← hpq]; exact h
      simp [List.filterMap_cons, List.filter_cons, h, h2, ih]
    · have h2 : q (f x) = true := by rw [← hpq]; exact h
      simp [List.filterMap_cons, List.filter_cons, h, h2, ih]

/-- The amended question grouping, phrased from the corrected spec
sentence: one candidate row per maximal consecutive run of equal
(question_index, question) — carrying the ordinal of the run, the
question's data or the synthetic number row — kept exactly when the
include-all flag is set or the row's in-latest-version flag is truthy. -/
def amendedQuestionRows (includeAll : Bool) (l : List Attachment) : List QuestionRow :=
  ((groupRuns questionKey l).enum.map (fun ir =>
      { base := questionRowBaseOf ir.2.1, attachments := ir.2.2, index := ir.1 })).filter
    (fun r => includeAll || rowInLatestVersion r.base)

/-- The source's row loop computes exactly the amended description
(`all or (not all and flag)` is `all or flag`). -/
theorem buildQuestionRows_eq_amended (a : Bool) (l : List Attachment) :
    buildQuestionRows a l = amendedQuestionRows a l := by
  unfold buildQuestionRows amendedQuestionRows
  exact filterMap_if_eq_filter_map
    (fun ir : Nat × (Nat × Option Question) × List Attachment =>
      ({ base := questionRowBaseOf ir.2.1, attachments := ir.2.2, index := ir.1 } : QuestionRow))
    (fun ir : Nat × (Nat × Option Question) × List Attachment =>
      a || (!a && rowInLatestVersion (questionRowBaseOf ir.2.1)))
    (fun r : QuestionRow => a || rowInLatestVersion r.base)
    (fun x => by cases a <;> simp) _

/-- C9 (amended): with groupKey "question" the records are stably sorted by
question_index ALONE (not by the pair (question_index, question)); each
maximal consecutive run of equal (question_index, question) yields one row
(real question data or synthetic number row, ordinal from enumerating all
runs), kept exactly when includeAll is set or its in-latest-version flag is
truthy; with groupKey "submission" the result is entirely independent of
the `all` parameter, so no row is ever dropped on its account. -/
theorem C9_amended :
    (∀ (params : AttParams) (qs : List Attachment), params.group_by = some "question" →
       AttachmentFilter.filter_queryset params qs = AttachmentResult.questionRows
         (amendedQuestionRows (decide (params.all.getD "true" = "true"))
           (questionIndexSort (orderByPk (decide (params.sort = some "desc"))
             (mimetypeFilter params.type qs))))) ∧
    (∀ (params : AttParams) (qs : List Attachment) (a b : Option String),
       params.group_by = some "submission" →
       AttachmentFilter.filter_queryset { params with all := a } qs =
       AttachmentFilter.filter_queryset { params with all := b } qs) := by
  constructor
  · intro params qs hg
    simp only [AttachmentFilter.filter_queryset, hg, pyOr]
    simp [buildQuestionRows_eq_amended]
  · intro params qs a b hg
    simp only [AttachmentFilter.filter_queryset, hg, pyOr]
    simp

/-- A question record A, present in the latest version. -/
def quA : Question := { name := "A", in_latest_version := true }

/-- A different question record B, present in the latest version. -/
def quB : Question := { name := "B", in_latest_version := true }

/-- A shared submission instance. -/
def inst0 : Instance := { id := 1, uuid := "uu-1", submission := none }

/-- Attachment pk 1: question_index 1, question A. -/
def att1 : Attachment :=
  { pk := 1, mimetype := "image/png", question_index := 1, question := some quA, inst := inst0 }

/-- Attachment pk 2: question_index 1, question B. -/
def att2 : Attachment :=
  { pk := 2, mimetype := "image/png", question_index := 1, question := some quB, inst := inst0 }

/-- Attachment pk 3: question_index 1, question A again. -/
def att3 : Attachment :=
  { pk := 3, mimetype := "image/png", question_index := 1, question := some quA, inst := inst0 }

/-- Request parameters grouping by question, all other parameters absent. -/
def attPrms : AttParams :=
  { type := none, group_by := some "question", order_by := none, sort := none, all := none }

/-- C9 is false on the code as stated: the records are sorted by
`question_index` ALONE (line 280-281), not by the claimed effective key
(question_index, question), while `groupby` merges only CONSECUTIVE equal
(question_index, question) pairs.  With attachments (pk 1: index 1,
question A), (pk 2: index 1, question B), (pk 3: index 1, question A) the
pk-sorted order interleaves A, B, A, producing THREE rows — two of which
(ordinals 0 and 2) carry the same key — whereas sorting by the claimed pair
key would merge pk 1 and pk 3 into a single row per key. -/
theorem C9_counterexample :
    AttachmentFilter.filter_queryset attPrms [att1, att2, att3] =
      AttachmentResult.questionRows
        [{ base := QuestionRowBase.real quA, attachments := [att1], index := 0 },
         { base := QuestionRowBase.real quB, attachments := [att2], index := 1 },
         { base := QuestionRowBase.real quA, attachments := [att3], index := 2 }]
    ∧ questionKey att1 = questionKey att3 ∧ att1 ≠ att3 := by
  refine ⟨rfl, rfl, by decide⟩

/-- Witness for C9_amended at a concrete input. -/
theorem C9_amended_witness :
    (AttachmentFilter.filter_queryset attPrms [att1, att2, att3] =
      AttachmentResult.questionRows
        (amendedQuestionRows (decide (attPrms.all.getD "true" = "true"))
          (questionIndexSort (orderByPk (decide (attPrms.sort = some "desc"))
            (mimetypeFilter attPrms.type [att1, att2, att3]))))) ∧
    (AttachmentFilter.filter_queryset
        { type := none, group_by := some "submission", order_by := none, sort := none,
          all := some "false" } [att1, att2, att3] =
      AttachmentFilter.filter_queryset
        { type := none, group_by := some "submission", order_by := none, sort := none,
          all := some "true" } [att1, att2, att3]) :=
  ⟨C9_amended.1 attPrms [att1, att2, att3] rfl,
   C9_amended.2
     { type := none, group_by := some "submission", order_by := none, sort := none, all := none }
     [att1, att2, att3] (some "false") (some "true") rfl⟩

/-! ## C10 -/

/-- C10: when the query misses both the exact table and the structured
pattern and the access-controlled input collection is empty, the filter
returns it unchanged (lines 185-187) before any backend interaction — in
particular the result is the same for every backend and index state, so
neither the unsupported-backend error nor the empty-index fallback can
arise. -/
theorem C10_empty_queryset (schema : MSchema) (biw : Bool) (index : SearchIndexState)
    (mq : String → SearchDoc → Bool) (modelCt username q : String) (parent : Option String)
    (h1 : COMMON_QUERY_TO_ORM_FILTER q = none)
    (h2 : libraryCollectionMatch q = none) :
    SearchFilter.filter_queryset schema biw index mq modelCt username
      { q := some q, parent := parent } [] = Except.ok [] := by
  simp only [SearchFilter.filter_queryset, h1, h2]
  split <;> simp

/-- Witness for C10_empty_queryset at a concrete input, with a non-Whoosh
backend (`biw = false`): no error is raised. -/
theorem C10_empty_queryset_witness :
    SearchFilter.filter_queryset { has_asset_type := true, has_parent_uid := true } false
      { docs := [docOther], has_users_granted_permission := true } (fun _ _ => true)
      "kpi.asset" "alice" { q := some "zebra", parent := none } [] = Except.ok [] :=
  C10_empty_queryset { has_asset_type := true, has_parent_uid := true } false
    { docs := [docOther], has_users_granted_permission := true } (fun _ _ => true)
    "kpi.asset" "alice" "zebra" none rfl rfl
